import Mathlib

/-!
Verification of the flight-alert repository core logic.

The Python sources `flight_api_client.py` and `telegram_bot.py` are embedded
shallowly: offers are records with optional fields, the SerpApi wrapper and
the command handlers become pure functions over explicit worlds (API key,
per-call response), and per-user state is passed explicitly.  Prices coming
from JSON are either numeric or strings; numeric values are modelled by `ℚ`.
-/

namespace FlightAlert

/-- A price value as it appears in the JSON data: a number or a string. -/
inductive PriceVal where
  | num (q : ℚ)
  | str (s : String)
  deriving DecidableEq, Repr

/-- One flight offer dictionary as built by `search_flights_api`
(`flight_api_client.py` lines 61-77): keys `airline`, `flight_number`,
`price`, `departure_time`, plus the `date` key added only during a monthly
scan.  A field value `none` models the key being absent or `None`. -/
structure Offer where
  airline : Option String
  flight_number : Option String
  price : Option PriceVal
  departure_time : Option String
  date : Option String
  deriving DecidableEq, Repr

/-- The numeric price of an offer, when present
(`isinstance(f.get(price), (int, float))`). -/
def numPrice (f : Offer) : Option ℚ :=
  match f.price with
  | some (PriceVal.num q) => some q
  | _ => none

/-- Python truthiness of a price value (`if flight_data["price"]:`,
`flight_api_client.py` line 76): `None`, `0` and `""` are falsy. -/
def truthyPrice : Option PriceVal → Bool
  | none => false
  | some (PriceVal.num q) => decide (q ≠ 0)
  | some (PriceVal.str s) => decide (s ≠ "")

/-- A stored per-user threshold value: Python `float` results.  `float` parses
to a finite value, an infinity, or a NaN. -/
inductive FloatR where
  | fin (q : ℚ)
  | inf
  | ninf
  | nan
  deriving DecidableEq, Repr

/-- The module-level default threshold (`telegram_bot.py` line 7). -/
def PRICE_THRESHOLD : ℚ := 300

/-- Python comparison `price <= user_threshold` for a price value `p`:
`some b` is the boolean outcome, `none` models the `TypeError` raised when
`p` is a string (caught by the handler, which then skips the offer). -/
def priceLeB (p : PriceVal) (t : FloatR) : Option Bool :=
  match p, t with
  | PriceVal.num q, FloatR.fin r => some (decide (q ≤ r))
  | PriceVal.num _, FloatR.inf => some true
  | PriceVal.num _, FloatR.ninf => some false
  | PriceVal.num _, FloatR.nan => some false
  | PriceVal.str _, _ => none

/-- The threshold-filter loop of `search_command_handler`
(`telegram_bot.py` lines 139-149): each offer is appended iff its price is
not `None` and `price <= user_threshold`; a `TypeError`/`ValueError` during
the comparison (string price) is caught and the offer skipped. -/
def cheapFlights : List Offer → FloatR → List Offer
  | [], _ => []
  | f :: rest, t =>
    match f.price with
    | none => cheapFlights rest t
    | some p =>
      match priceLeB p t with
      | some true => f :: cheapFlights rest t
      | some false => cheapFlights rest t
      | none => cheapFlights rest t

/-- The per-offer inclusion test of the threshold-filter loop as a boolean. -/
def keepB (f : Offer) (t : FloatR) : Bool :=
  match f.price with
  | none => false
  | some p => (priceLeB p t).getD false

/-! ### Python string and number helpers used by the client code -/

/-- Python whitespace characters stripped by `int()`/`float()`/`str.strip`. -/
def isPyWS (c : Char) : Bool :=
  c = ' ' || c = '\t' || c = '\n' || c = '\r' || c = '\x0b' || c = '\x0c'

/-- Strip leading and trailing Python whitespace. -/
def stripWS (cs : List Char) : List Char :=
  ((cs.dropWhile isPyWS).reverse.dropWhile isPyWS).reverse

/-- Continuation of a digit run in Python numeric literals: single
underscores are allowed between digits only. -/
def digitsCore : List Char → Bool
  | [] => true
  | ['_'] => false
  | '_' :: c :: rest => c.isDigit && digitsCore rest
  | c :: rest => c.isDigit && digitsCore rest

/-- A nonempty digit run with optional single underscores between digits,
as accepted by Python `int()`/`float()`. -/
def digitsU (cs : List Char) : Bool :=
  match cs with
  | [] => false
  | c :: rest => c.isDigit && digitsCore rest

/-- Numeric value of a digit run (underscores ignored). -/
def digitsVal (cs : List Char) : Nat :=
  (cs.filter (fun c => c.isDigit)).foldl (fun n c => 10 * n + (c.toNat - 48)) 0

/-- Python `int(str)` on a base-10 string: strip whitespace, optional sign,
digits with underscores; `none` models the `ValueError`. -/
def pyIntL? (cs : List Char) : Option Int :=
  match stripWS cs with
  | '+' :: rest => if digitsU rest then some (Int.ofNat (digitsVal rest)) else none
  | '-' :: rest => if digitsU rest then some (-(Int.ofNat (digitsVal rest))) else none
  | t => if digitsU t then some (Int.ofNat (digitsVal t)) else none

/-- Python `s.split('-')`. -/
def splitDash : List Char → List (List Char)
  | [] => [[]]
  | c :: cs =>
    if c = '-' then [] :: splitDash cs
    else
      match splitDash cs with
      | [] => [[c]]
      | g :: gs => (c :: g) :: gs

/-- The parse step `year, month = map(int, year_month_str.split('-'))`
(`flight_api_client.py` line 111): succeeds iff the split yields exactly two
pieces and both parse as ints; `none` models the caught `ValueError`. -/
def pyParseYM (s : String) : Option (Int × Int) :=
  match splitDash s.data with
  | [a, b] =>
    match pyIntL? a, pyIntL? b with
    | some y, some m => some (y, m)
    | _, _ => none
  | _ => none

/-! ### Calendar helpers (Python `calendar`) -/

/-- Python `calendar.isleap`. -/
def isleap (y : Int) : Bool :=
  decide (y % 4 = 0 ∧ (y % 100 ≠ 0 ∨ y % 400 = 0))

/-- Days in a month, as `calendar.monthrange(year, month)[1]`; only
meaningful for `1 ≤ month ≤ 12` (outside that range `monthrange` raises
`IllegalMonthError`, handled separately in the scan model). -/
def monthLen (y m : Int) : Nat :=
  if m = 2 then (if isleap y then 29 else 28)
  else if m = 4 ∨ m = 6 ∨ m = 9 ∨ m = 11 then 30
  else 31

/-- Zero-padded decimal rendering of a natural number to width `w`. -/
def padNat (w : Nat) (n : Nat) : String :=
  let digits := Nat.repr n
  String.mk (List.replicate (w - digits.length) '0' ++ digits.data)

/-- Python format `{n:0wd}` for an integer (sign counts toward the width). -/
def padInt (w : Nat) (n : Int) : String :=
  if n < 0 then String.mk ('-' :: (padNat (w - 1) (-n).toNat).data)
  else padNat w n.toNat

/-- The date string built per day of the scan:
`f"{year:04d}-{month:02d}-{day:02d}"` (`flight_api_client.py` line 122). -/
def dateStr (y m d : Int) : String :=
  padInt 4 y ++ "-" ++ padInt 2 m ++ "-" ++ padInt 2 d

/-- All dates queried by the month scan, days `1..num_days`. -/
def monthDates (y m : Int) : List String :=
  (List.range' 1 (monthLen y m)).map (fun d => dateStr y m (Int.ofNat d))

/-! ### The monthly scan (`find_cheapest_flights_in_month`) -/

/-- The augmentation step of the scan loop (`flight_api_client.py` lines
130-135): every offer of the day that is a dict with a non-`None` price is
copied (`flight.copy()`), the copy gets `date` set, and is collected;
other offers contribute nothing. -/
def augmentOffers (date : String) (flights : List Offer) : List Offer :=
  flights.filterMap fun f =>
    if f.price.isSome then some { f with date := some date } else none

/-- The collection `all_flights_for_month` after the day loop, for a source
giving each date's `search_flights_api` result. -/
def collectForMonth (source : String → List Offer) (y m : Int) : List Offer :=
  (monthDates y m).flatMap fun d => augmentOffers d (source d)

/-- Python `min` over a list of numbers (`none` on an empty list, where
`min()` raises). -/
def pyMin? : List ℚ → Option ℚ
  | [] => none
  | x :: xs => some (xs.foldl min x)

/-- The tail of the scan after collection (`flight_api_client.py` lines
140-155): empty-collection check, filter to numeric prices, empty check,
minimum, and the equality filter. -/
def postProcessMonth (collected : List Offer) : List Offer :=
  if collected.isEmpty then []
  else if (collected.filter fun f => (numPrice f).isSome).isEmpty then []
  else
    match pyMin? ((collected.filter fun f => (numPrice f).isSome).filterMap numPrice) with
    | some mp =>
      (collected.filter fun f => (numPrice f).isSome).filter
        fun f => decide (numPrice f = some mp)
    | none => []

/-! ### The SerpApi client wrapper (`search_flights_api`) -/

/-- One leg of a flight offer in the SerpApi response (`flights[0]`); the
`departure_time` field models `leg.get("departure_airport", ...).get("time")`. -/
structure Leg where
  airline : Option String
  flight_number : Option String
  departure_time : Option String
  deriving DecidableEq, Repr

/-- One entry of `best_flights`/`other_flights`: the optional `flights`
list of legs (`none` models an absent key), the offer-level `price`, and
the `airline_logo` used for summarized offers. -/
structure FlightInfo where
  legs : Option (List Leg)
  price : Option PriceVal
  airline_logo : Option String
  deriving DecidableEq, Repr

/-- The response dictionary returned by `get_dict()`: whether an `error`
key is present, and the two offer categories. -/
structure SerpResults where
  error : Bool
  best_flights : List FlightInfo
  other_flights : List FlightInfo
  deriving DecidableEq, Repr

/-- What `SerpApiClient(params).get_dict()` does for one query: return a
dictionary, raise `serp_api_client_exception`, or raise another exception. -/
inductive SerpCall where
  | ok (r : SerpResults)
  | raiseClient
  | raiseOther
  deriving DecidableEq, Repr

/-- What a Python call can be observed to do: return a value, return
`None`, or raise an exception. -/
inductive PyRet (α : Type) where
  | val (a : α)
  | retNone
  | raise
  deriving DecidableEq, Repr

/-- The per-`flight_info` processing of `search_flights_api`
(`flight_api_client.py` lines 57-77): with a nonempty `flights` list the
first leg is combined with the offer price; with an empty or absent
`flights` list a summarized offer is built and kept only when its price is
truthy; a non-list truthy `flights` value has no counterpart here (the
response model types `flights` as a list when present). -/
def processInfo (fi : FlightInfo) : List Offer :=
  match fi.legs with
  | some (leg :: _) =>
    [{ airline := leg.airline, flight_number := leg.flight_number,
       price := fi.price, departure_time := leg.departure_time, date := none }]
  | some [] =>
    if truthyPrice fi.price then
      [{ airline := fi.airline_logo, flight_number := none,
         price := fi.price, departure_time := none, date := none }]
    else []
  | none =>
    if truthyPrice fi.price then
      [{ airline := fi.airline_logo, flight_number := none,
         price := fi.price, departure_time := none, date := none }]
    else []

/-- `search_flights_api` (`flight_api_client.py` lines 14-95) for a given
`SERPAPI_KEY` value and SerpApi call outcome.  Every execution path of the
source ends in a `return` of a list: missing/empty key, API-reported
`error` field, successful processing, no data, and both `except` handlers. -/
def search_flights_api (api_key : Option String) (call : SerpCall) :
    PyRet (List Offer) :=
  match api_key with
  | none => PyRet.val []
  | some k =>
    if k = "" then PyRet.val []
    else
      match call with
      | SerpCall.raiseClient => PyRet.val []
      | SerpCall.raiseOther => PyRet.val []
      | SerpCall.ok r =>
        if r.error then PyRet.val []
        else
          PyRet.val (r.best_flights.flatMap processInfo
            ++ r.other_flights.flatMap processInfo)

/-- The list `search_flights_api` returns (it always returns one). -/
def searchFlightsList (api_key : Option String) (call : SerpCall) :
    List Offer :=
  match search_flights_api api_key call with
  | PyRet.val l => l
  | _ => []

/-- Outcome of the scan: a returned list, or an uncaught exception
(`calendar.monthrange` raising `IllegalMonthError` for a month outside
`1..12`, which line 116 does not catch). -/
inductive ScanRet where
  | ret (l : List Offer)
  | raise
  deriving DecidableEq, Repr

/-- `find_cheapest_flights_in_month` (`flight_api_client.py` lines 97-155),
paired with the list of dates for which the data source was queried.  A
malformed `year_month_str` is caught and yields `[]` with no queries. -/
def find_cheapest_flights_in_month (source : String → List Offer)
    (year_month_str : String) : ScanRet × List String :=
  match pyParseYM year_month_str with
  | none => (ScanRet.ret [], [])
  | some (year, month) =>
    if 1 ≤ month ∧ month ≤ 12 then
      (ScanRet.ret (postProcessMonth (collectForMonth source year month)),
        monthDates year month)
    else (ScanRet.raise, [])

/-! ### The Telegram command handlers (`telegram_bot.py`) -/

/-- Python `str.upper()`. -/
def upperStr (s : String) : String :=
  String.mk (s.data.map Char.toUpper)

/-- Python `str.isalpha()`: nonempty and all alphabetic. -/
def isalphaB (s : String) : Bool :=
  !s.data.isEmpty && s.data.all Char.isAlpha

/-- The airport-code check `len(code) == 3 and code.isalpha()`. -/
def validCode (s : String) : Bool :=
  decide (s.length = 3) && isalphaB s

/-- The `/search` argument check (`telegram_bot.py` lines 109-111): 3-letter
alphabetic codes and a date of length 10 — the date content is not
inspected beyond its length. -/
def validSearchArgs (origin dest date : String) : Bool :=
  validCode origin && validCode dest && decide (date.length = 10)

/-- The check `re.match(r"^\d{4}-\d{2}$", year_month_str)`
(`telegram_bot.py` line 240); `$` also matches just before one trailing
newline. -/
def ymShaped (s : String) : Bool :=
  match s.data with
  | [a, b, c, d, e, f, g] =>
    a.isDigit && b.isDigit && c.isDigit && d.isDigit && decide (e = '-') &&
      f.isDigit && g.isDigit
  | [a, b, c, d, e, f, g, h] =>
    a.isDigit && b.isDigit && c.isDigit && d.isDigit && decide (e = '-') &&
      f.isDigit && g.isDigit && decide (h = '\n')
  | _ => false

/-- Tags for the distinct user-visible replies of the handlers. -/
inductive Msg where
  | usageSearch
  | invalidFormat
  | internalError
  | errorFetching
  | noFlightsSingle
  | alertIntro (n : Nat)
  | chunk (s : String)
  | noneBelow (n : Nat)
  | usageMonth
  | invalidOrigin
  | invalidDest
  | invalidYM
  | searchingMonth
  | internalErrorMonth
  | noFlightsMonth
  | usageThreshold
  | mustBePositive
  | invalidAmount
  | thresholdUpdated (v : FloatR)
  deriving DecidableEq, Repr

/-- Observable actions of one handler run: a reply sent to the user, or an
invocation of the data source for one (origin, destination, date) query. -/
inductive Act where
  | reply (m : Msg)
  | apiCall (origin dest date : String)
  deriving DecidableEq, Repr

/-- The message-chunking loop of `search_command_handler` (`telegram_bot.py`
lines 166-176): the running message is flushed whenever appending the next
part (plus a blank line) would exceed 4096 characters, and any nonempty
remainder is flushed at the end.  Returns the sequence of sent messages. -/
def sendChunks : List String → String → List String
  | [], acc => if acc = "" then [] else [acc]
  | p :: rest, acc =>
    if acc.length + p.length + 2 > 4096 then
      acc :: sendChunks rest (p ++ "\n\n")
    else
      sendChunks rest (acc ++ p ++ "\n\n")

/-- The cutoff suffix of the month chunking loop (`telegram_bot.py`
line 298). -/
def moreMsg (k : Nat) : String :=
  "...and " ++ Nat.repr k ++ " more similar flights."

/-- The message-chunking loop of `search_month_command_handler`
(`telegram_bot.py` lines 287-303): same flushing as `sendChunks`, plus the
safety break after index 28 when more than 30 parts exist, which appends a
"...and N more" suffix and stops. -/
def chunkMonthLoop (total : Nat) : Nat → List String → String → List String
  | _, [], acc => if acc = "" then [] else [acc]
  | i, p :: rest, acc =>
    if acc.length + p.length + 2 > 4096 then
      if i > 28 ∧ total > 30 then
        acc ::
          (if p ++ "\n\n" ++ moreMsg (total - (i + 1)) = "" then []
            else [p ++ "\n\n" ++ moreMsg (total - (i + 1))])
      else acc :: chunkMonthLoop total (i + 1) rest (p ++ "\n\n")
    else
      if i > 28 ∧ total > 30 then
        (if acc ++ p ++ "\n\n" ++ moreMsg (total - (i + 1)) = "" then []
          else [acc ++ p ++ "\n\n" ++ moreMsg (total - (i + 1))])
      else chunkMonthLoop total (i + 1) rest (acc ++ p ++ "\n\n")

/-- `search_command_handler` (`telegram_bot.py` lines 87-188) as a function
of the data-source behaviour, a rendering function for the per-flight
detail text (display glue, kept abstract), the user's effective threshold,
and the command arguments.  Produces the observable action sequence. -/
def search_command_handler
    (api : String → String → String → PyRet (List Offer))
    (render : Offer → String) (user_threshold : FloatR)
    (args : List String) : List Act :=
  match args with
  | [a0, a1, a2] =>
    let origin := upperStr a0
    let dest := upperStr a1
    let date := a2
    if validSearchArgs origin dest date then
      Act.apiCall origin dest date ::
        match api origin dest date with
        | PyRet.raise => [Act.reply Msg.internalError]
        | PyRet.retNone => [Act.reply Msg.errorFetching]
        | PyRet.val flights =>
          if flights.isEmpty then [Act.reply Msg.noFlightsSingle]
          else
            match cheapFlights flights user_threshold with
            | [] => [Act.reply (Msg.noneBelow flights.length)]
            | cf :: cfs =>
              Act.reply (Msg.alertIntro (cf :: cfs).length) ::
                (sendChunks ((cf :: cfs).map render) "").map
                  (fun s => Act.reply (Msg.chunk s))
    else [Act.reply Msg.invalidFormat]
  | _ => [Act.reply Msg.usageSearch]

/-- The environment the live bot runs against: the `SERPAPI_KEY` value and
the SerpApi behaviour per query. -/
structure ApiWorld where
  key : Option String
  call : String → String → String → SerpCall

/-- `search_command_handler` composed with the real `search_flights_api`,
as in the source (`telegram_bot.py` line 122). -/
def search_command_handler_live (w : ApiWorld) (render : Offer → String)
    (user_threshold : FloatR) (args : List String) : List Act :=
  search_command_handler
    (fun o d dt => search_flights_api w.key (w.call o d dt))
    render user_threshold args

/-- `search_month_command_handler` (`telegram_bot.py` lines 215-303): the
three validation checks, the "searching" notice, the scan (whose per-day
queries become `apiCall` actions), and either the internal-error reply (an
exception escaping the scan), the no-flights reply, or the chunked result
messages built from a header and per-flight details (`hdr` and `render`
keep the display text abstract). -/
def search_month_command_handler (w : ApiWorld)
    (hdr : String → String → String → Option PriceVal → String)
    (render : Offer → String) (args : List String) : List Act :=
  match args with
  | [a0, a1, a2] =>
    let origin := upperStr a0
    let dest := upperStr a1
    let ym := a2
    if !validCode origin then [Act.reply Msg.invalidOrigin]
    else if !validCode dest then [Act.reply Msg.invalidDest]
    else if !ymShaped ym then [Act.reply Msg.invalidYM]
    else
      Act.reply Msg.searchingMonth ::
        (((find_cheapest_flights_in_month
              (fun dt => searchFlightsList w.key (w.call origin dest dt))
              ym).2.map (fun dt => Act.apiCall origin dest dt)) ++
          match (find_cheapest_flights_in_month
              (fun dt => searchFlightsList w.key (w.call origin dest dt))
              ym).1 with
          | ScanRet.raise => [Act.reply Msg.internalErrorMonth]
          | ScanRet.ret [] => [Act.reply Msg.noFlightsMonth]
          | ScanRet.ret (f :: fs) =>
            (chunkMonthLoop (f :: fs).length 0 ((f :: fs).map render)
                (hdr origin dest ym f.price)).map
              (fun s => Act.reply (Msg.chunk s)))
  | _ => [Act.reply Msg.usageMonth]

/-- Per-user bot state: the stored `price_threshold` entry of
`context.user_data`, absent until the user sets one. -/
structure BotUserData where
  price_threshold : Option FloatR
  deriving DecidableEq, Repr

/-- Python `new_threshold <= 0` on a parsed float. -/
def floatLeZero : FloatR → Bool
  | FloatR.fin q => decide (q ≤ 0)
  | FloatR.inf => false
  | FloatR.ninf => true
  | FloatR.nan => false

/-- Split a character list at the first exponent marker `e`/`E`. -/
def splitE : List Char → List Char × Option (List Char)
  | [] => ([], none)
  | c :: rest =>
    if c = 'e' ∨ c = 'E' then ([], some rest)
    else
      match splitE rest with
      | (m, e) => (c :: m, e)

/-- Split a character list at the first decimal point. -/
def splitDot : List Char → List Char × Option (List Char)
  | [] => ([], none)
  | c :: rest =>
    if c = '.' then ([], some rest)
    else
      match splitDot rest with
      | (m, e) => (c :: m, e)

/-- Value of the mantissa of a Python float literal: `digits`, `digits.`,
`.digits` or `digits.digits` (with underscore rules), `none` otherwise. -/
def mantissaVal? (cs : List Char) : Option ℚ :=
  match splitDot cs with
  | (ip, none) => if digitsU ip then some ((digitsVal ip : ℚ)) else none
  | (ip, some fp) =>
    if (ip.isEmpty || digitsU ip) && (fp.isEmpty || digitsU fp) &&
        !(ip.isEmpty && fp.isEmpty) then
      some ((digitsVal ip : ℚ)
        + (digitsVal fp : ℚ) / (10 : ℚ) ^ (fp.filter Char.isDigit).length)
    else none

/-- Value of the exponent part of a Python float literal. -/
def expVal? (cs : List Char) : Option Int :=
  match cs with
  | '+' :: r => if digitsU r then some (Int.ofNat (digitsVal r)) else none
  | '-' :: r => if digitsU r then some (-(Int.ofNat (digitsVal r))) else none
  | r => if digitsU r then some (Int.ofNat (digitsVal r)) else none

/-- Unsigned body of Python `float(str)`: `inf`/`infinity`/`nan`
(case-insensitive) or mantissa with optional exponent.  Numeric values are
kept exact in `ℚ`. -/
def pyFloatMag? (cs : List Char) : Option FloatR :=
  let lower := cs.map Char.toLower
  if lower = "inf".data ∨ lower = "infinity".data then some FloatR.inf
  else if lower = "nan".data then some FloatR.nan
  else
    match splitE cs with
    | (mant, none) => (mantissaVal? mant).map FloatR.fin
    | (mant, some ex) =>
      match mantissaVal? mant, expVal? ex with
      | some q, some e => some (FloatR.fin (q * (10 : ℚ) ^ e))
      | _, _ => none

/-- Negation of a parsed float (for a leading `-`). -/
def negFloat : FloatR → FloatR
  | FloatR.fin q => FloatR.fin (-q)
  | FloatR.inf => FloatR.ninf
  | FloatR.ninf => FloatR.inf
  | FloatR.nan => FloatR.nan

/-- Python `float(str)`: strip whitespace, optional sign, body; `none`
models the `ValueError`. -/
def pyFloat? (s : String) : Option FloatR :=
  match stripWS s.data with
  | '+' :: rest => pyFloatMag? rest
  | '-' :: rest => (pyFloatMag? rest).map negFloat
  | t => pyFloatMag? t

/-- `set_threshold_command_handler` (`telegram_bot.py` lines 190-213):
argument-count check, `float` parse (`ValueError` caught and reported),
positivity check, and the state update. -/
def set_threshold_command_handler (args : List String) (ud : BotUserData) :
    Msg × BotUserData :=
  match args with
  | [a] =>
    match pyFloat? a with
    | none => (Msg.invalidAmount, ud)
    | some v =>
      if floatLeZero v then (Msg.mustBePositive, ud)
      else (Msg.thresholdUpdated v, { ud with price_threshold := some v })
  | _ => (Msg.usageThreshold, ud)

/-- The 10-character digits-and-hyphens `YYYY-MM-DD` shape, written from
the specification's words ("a 10-character string in YYYY-MM-DD shape") to
compare against the code's own date check. -/
def specDateShapedYMD (s : String) : Bool :=
  match s.data with
  | [a, b, c, d, e, f, g, h, i, j] =>
    a.isDigit && b.isDigit && c.isDigit && d.isDigit && decide (e = '-') &&
      f.isDigit && g.isDigit && decide (h = '-') && i.isDigit && j.isDigit
  | _ => false

/-- Concatenation of a list of sent messages, for order/content
preservation statements. -/
def concatAll (l : List String) : String :=
  l.foldr (fun a b => a ++ b) ""

/-- A trivial rendering function used by concrete witnesses. -/
def renderNone : Offer → String := fun _ => ""

/-- A trivial month-header rendering used by concrete witnesses. -/
def hdrNone : String → String → String → Option PriceVal → String :=
  fun _ _ _ _ => ""

/-- A world with no `SERPAPI_KEY` set, used by concrete witnesses. -/
def worldNone : ApiWorld :=
  { key := none, call := fun _ _ _ => SerpCall.raiseClient }

/-- A world with a key set whose SerpApi call raises the client exception
(a SourceError), used by concrete counterexamples. -/
def worldRaise : ApiWorld :=
  { key := some "K", call := fun _ _ _ => SerpCall.raiseClient }

/-- A world with a key set whose SerpApi call succeeds with zero offers,
used by concrete counterexamples. -/
def worldEmptyOk : ApiWorld :=
  { key := some "K",
    call := fun _ _ _ => SerpCall.ok
      { error := false, best_flights := [], other_flights := [] } }

/-- A single flight-detail part of 4095 characters. -/
def bigPart : String := String.mk (List.replicate 4095 'a')

/-- A concrete offer used by several witnesses. -/
def offerA : Offer :=
  { airline := some "AA", flight_number := some "AA100",
    price := some (PriceVal.num 100),
    departure_time := some "08:00", date := none }

/-! ### Lemmas -/

lemma cheapFlights_eq_filter (offers : List Offer) (t : FloatR) :
    cheapFlights offers t = offers.filter (fun f => keepB f t) := by
  induction offers with
  | nil => rfl
  | cons f rest ih =>
    simp only [cheapFlights]
    split
    · next hp => simp [List.filter_cons, keepB, hp, ih]
    · next p hp =>
      split
      · next hb => simp [List.filter_cons, keepB, hp, hb, ih]
      · next hb => simp [List.filter_cons, keepB, hp, hb, ih]
      · next hb => simp [List.filter_cons, keepB, hp, hb, ih]

lemma keepB_fin_iff (f : Offer) (T : ℚ) :
    keepB f (FloatR.fin T) = true ↔
      ∃ q : ℚ, f.price = some (PriceVal.num q) ∧ q ≤ T := by
  rcases hp : f.price with _ | p
  · simp [keepB, hp]
  · rcases p with q | s
    · simp [keepB, hp, priceLeB]
    · simp [keepB, hp, priceLeB]

lemma cheapFlights_sublist (offers : List Offer) (t : FloatR) :
    (cheapFlights offers t).Sublist offers := by
  rw [cheapFlights_eq_filter]
  exact List.filter_sublist offers

lemma mem_cheapFlights_fin (offers : List Offer) (T : ℚ) (f : Offer) :
    f ∈ cheapFlights offers (FloatR.fin T) ↔
      f ∈ offers ∧ ∃ q : ℚ, f.price = some (PriceVal.num q) ∧ q ≤ T := by
  rw [cheapFlights_eq_filter, List.mem_filter, keepB_fin_iff]

lemma search_flights_api_eq_val (api_key : Option String) (call : SerpCall) :
    search_flights_api api_key call
      = PyRet.val (searchFlightsList api_key call) := by
  rcases api_key with _ | k
  · rfl
  · by_cases hk : k = ""
    · simp [search_flights_api, searchFlightsList, hk]
    · rcases call with r | _ | _
      · by_cases he : r.error
        · simp [search_flights_api, searchFlightsList, hk, he]
        · simp [search_flights_api, searchFlightsList, hk, he]
      · simp [search_flights_api, searchFlightsList, hk]
      · simp [search_flights_api, searchFlightsList, hk]

lemma augmentOffers_nil (d : String) : augmentOffers d [] = [] := rfl

lemma flatMap_zeroed_day (l : List String) (g : String → List Offer) (dd : String) :
    (l.flatMap fun dt => if dt = dd then [] else g dt)
      = ((l.filter fun dt => !(decide (dt = dd))).flatMap g) := by
  induction l with
  | nil => rfl
  | cons a l ih =>
    by_cases h : a = dd
    · simp [List.flatMap_cons, List.filter_cons, h, ih]
    · simp [List.flatMap_cons, List.filter_cons, h, ih]

lemma foldl_min_le_all (xs : List ℚ) :
    ∀ a : ℚ, xs.foldl min a ≤ a ∧ ∀ y ∈ xs, xs.foldl min a ≤ y := by
  induction xs with
  | nil => simp
  | cons x xs ih =>
    intro a
    refine ⟨le_trans (ih (min a x)).1 (min_le_left a x), ?_⟩
    intro y hy
    rcases List.mem_cons.mp hy with rfl | hy
    · exact le_trans (ih (min a y)).1 (min_le_right a y)
    · exact (ih (min a x)).2 y hy

lemma foldl_min_mem (xs : List ℚ) :
    ∀ a : ℚ, xs.foldl min a = a ∨ xs.foldl min a ∈ xs := by
  induction xs with
  | nil => intro a; exact Or.inl rfl
  | cons x xs ih =>
    intro a
    rcases ih (min a x) with h | h
    · rcases le_total a x with hax | hxa
      · left
        rw [List.foldl_cons, h, min_eq_left hax]
      · right
        rw [List.foldl_cons, h, min_eq_right hxa]
        exact List.mem_cons_self x xs
    · right
      exact List.mem_cons_of_mem x h

lemma pyMin?_spec (x : ℚ) (xs : List ℚ) :
    ∃ mp, pyMin? (x :: xs) = some mp ∧ mp ∈ x :: xs ∧ ∀ y ∈ x :: xs, mp ≤ y := by
  refine ⟨xs.foldl min x, rfl, ?_, ?_⟩
  · rcases foldl_min_mem xs x with h | h
    · rw [h]; exact List.mem_cons_self x xs
    · exact List.mem_cons_of_mem x h
  · intro y hy
    rcases List.mem_cons.mp hy with rfl | hy
    · exact (foldl_min_le_all xs y).1
    · exact (foldl_min_le_all xs x).2 y hy

lemma postProcessMonth_spec (L : List Offer)
    (hv : L.filter (fun f => (numPrice f).isSome) ≠ []) :
    ∃ mp : ℚ,
      postProcessMonth L
          = (L.filter fun f => (numPrice f).isSome).filter
              (fun f => decide (numPrice f = some mp)) ∧
        (∃ f ∈ L.filter (fun f => (numPrice f).isSome), numPrice f = some mp) ∧
        (∀ f ∈ L.filter (fun f => (numPrice f).isSome),
          ∀ q, numPrice f = some q → mp ≤ q) := by
  have hLne : L ≠ [] := by
    intro h
    apply hv
    rw [h]
    rfl
  have hLe : L.isEmpty = false := by
    cases L with
    | nil => exact absurd rfl hLne
    | cons a l => rfl
  have hve : (L.filter fun f => (numPrice f).isSome).isEmpty = false := by
    cases hvv : L.filter fun f => (numPrice f).isSome with
    | nil => exact absurd hvv hv
    | cons a l => rfl
  obtain ⟨p, ps, hpp⟩ :
      ∃ p ps, (L.filter fun f => (numPrice f).isSome).filterMap numPrice
        = p :: ps := by
    cases hvv : L.filter fun f => (numPrice f).isSome with
    | nil => exact absurd hvv hv
    | cons f fs =>
      have hf : f ∈ L.filter fun g => (numPrice g).isSome := by
        rw [hvv]
        exact List.mem_cons_self f fs
      have hfs : (numPrice f).isSome = true := (List.mem_filter.mp hf).2
      obtain ⟨q, hq⟩ := Option.isSome_iff_exists.mp hfs
      simp only [List.filterMap_cons, hq]
      exact ⟨q, _, rfl⟩
  obtain ⟨mp, hmin, hmem, hle⟩ := pyMin?_spec p ps
  refine ⟨mp, ?_, ?_, ?_⟩
  · simp only [postProcessMonth, hLe, hve, hpp, hmin, Bool.false_eq_true,
      if_false]
  · rw [← hpp] at hmem
    obtain ⟨f, hf, hfq⟩ := List.mem_filterMap.mp hmem
    exact ⟨f, hf, hfq⟩
  · intro f hf q hq
    have hqmem : q ∈ (L.filter fun g => (numPrice g).isSome).filterMap numPrice :=
      List.mem_filterMap.mpr ⟨f, hf, hq⟩
    rw [hpp] at hqmem
    exact hle q hqmem

lemma concatAll_nil : concatAll [] = "" := rfl

lemma concatAll_cons (a : String) (l : List String) :
    concatAll (a :: l) = a ++ concatAll l := rfl

lemma sendChunks_length_le (parts : List String) :
    ∀ acc : String, (∀ p ∈ parts, p.length ≤ 4094) → acc.length ≤ 4096 →
      ∀ msg ∈ sendChunks parts acc, msg.length ≤ 4096 := by
  induction parts with
  | nil =>
    intro acc _ hacc msg hmsg
    simp only [sendChunks] at hmsg
    split at hmsg
    · exact absurd hmsg (List.not_mem_nil msg)
    · rw [List.mem_singleton] at hmsg
      subst hmsg
      exact hacc
  | cons p rest ih =>
    intro acc hparts hacc msg hmsg
    have hp : p.length ≤ 4094 := hparts p (List.mem_cons_self p rest)
    have hrest : ∀ q ∈ rest, q.length ≤ 4094 := fun q hq =>
      hparts q (List.mem_cons_of_mem p hq)
    simp only [sendChunks] at hmsg
    split at hmsg
    · rcases List.mem_cons.mp hmsg with rfl | hmsg
      · exact hacc
      · refine ih _ hrest ?_ msg hmsg
        have hnn : ("\n\n" : String).length = 2 := rfl
        rw [String.length_append]
        omega
    · next hgt =>
      refine ih _ hrest ?_ msg hmsg
      have hnn : ("\n\n" : String).length = 2 := rfl
      rw [String.length_append, String.length_append]
      omega

lemma sendChunks_concat (parts : List String) :
    ∀ acc : String,
      concatAll (sendChunks parts acc)
        = acc ++ concatAll (parts.map (fun p => p ++ "\n\n")) := by
  induction parts with
  | nil =>
    intro acc
    simp only [sendChunks, List.map_nil, concatAll_nil, String.append_empty]
    split
    · next h => rw [h, concatAll_nil]
    · rw [concatAll_cons, concatAll_nil, String.append_empty]
  | cons p rest ih =>
    intro acc
    simp only [sendChunks, List.map_cons, concatAll_cons]
    split
    · simp [concatAll_cons, ih, String.append_assoc]
    · simp [ih, String.append_assoc]

lemma chunkMonthLoop_eq_sendChunks (total : Nat) (htot : total ≤ 30)
    (parts : List String) :
    ∀ (i : Nat) (acc : String),
      chunkMonthLoop total i parts acc = sendChunks parts acc := by
  induction parts with
  | nil => intro i acc; rfl
  | cons p rest ih =>
    intro i acc
    have hbreak : ¬(i > 28 ∧ total > 30) := fun h => absurd h.2 (by omega)
    simp only [chunkMonthLoop, sendChunks]
    by_cases hc : acc.length + p.length + 2 > 4096
    · rw [if_pos hc, if_pos hc, if_neg hbreak, ih]
    · rw [if_neg hc, if_neg hc, if_neg hbreak, ih]

lemma handler_no_error_replies (w : ApiWorld) (render : Offer → String)
    (t : FloatR) (args : List String) :
    ∀ x ∈ search_command_handler_live w render t args,
      x ≠ Act.reply Msg.errorFetching ∧ x ≠ Act.reply Msg.internalError := by
  intro x hx
  rcases args with _ | ⟨a0, _ | ⟨a1, _ | ⟨a2, _ | ⟨a3, rest⟩⟩⟩⟩
  · simp only [search_command_handler_live, search_command_handler,
      List.mem_singleton] at hx
    subst hx
    exact ⟨by simp, by simp⟩
  · simp only [search_command_handler_live, search_command_handler,
      List.mem_singleton] at hx
    subst hx
    exact ⟨by simp, by simp⟩
  · simp only [search_command_handler_live, search_command_handler,
      List.mem_singleton] at hx
    subst hx
    exact ⟨by simp, by simp⟩
  · simp only [search_command_handler_live, search_command_handler] at hx
    split at hx
    · simp only [search_flights_api_eq_val, List.mem_cons] at hx
      rcases hx with rfl | hx
      · exact ⟨by simp, by simp⟩
      · split at hx
        · rw [List.mem_singleton] at hx
          subst hx
          exact ⟨by simp, by simp⟩
        · split at hx
          · rw [List.mem_singleton] at hx
            subst hx
            exact ⟨by simp, by simp⟩
          · rcases List.mem_cons.mp hx with rfl | hx
            · exact ⟨by simp, by simp⟩
            · obtain ⟨s, _, rfl⟩ := List.mem_map.mp hx
              exact ⟨by simp, by simp⟩
    · rw [List.mem_singleton] at hx
      subst hx
      exact ⟨by simp, by simp⟩
  · simp only [search_command_handler_live, search_command_handler,
      List.mem_singleton] at hx
    subst hx
    exact ⟨by simp, by simp⟩

end FlightAlert

/-- C2: an offer is in the qualifying output of the single-date threshold
filter iff its price is present as a number and at most the threshold;
offers without a numeric price are skipped, and the qualifying offers keep
the relative order of the input (they form a sublist of it). -/
theorem C2_threshold_filter (offers : List FlightAlert.Offer) (T : ℚ) :
    (∀ f : FlightAlert.Offer,
        f ∈ FlightAlert.cheapFlights offers (FlightAlert.FloatR.fin T) ↔
          f ∈ offers ∧
            ∃ q : ℚ, f.price = some (FlightAlert.PriceVal.num q) ∧ q ≤ T) ∧
      (FlightAlert.cheapFlights offers (FlightAlert.FloatR.fin T)).Sublist offers :=
  ⟨fun f => FlightAlert.mem_cheapFlights_fin offers T f,
    FlightAlert.cheapFlights_sublist offers (FlightAlert.FloatR.fin T)⟩

/-- C9: during monthly aggregation, an offer ends up in the day's collected
list iff it is a date-tagged copy of one of the source offers with a
non-`None` price: the copy carries `date`, and every other field is the
original's, unchanged (the original list is untouched, the tag being added
to `flight.copy()`). -/
theorem C9_copy_on_tag (d : String) (fs : List FlightAlert.Offer)
    (g : FlightAlert.Offer) :
    g ∈ FlightAlert.augmentOffers d fs ↔
      ∃ f ∈ fs, f.price.isSome = true ∧
        g.airline = f.airline ∧ g.flight_number = f.flight_number ∧
        g.price = f.price ∧ g.departure_time = f.departure_time ∧
        g.date = some d := by
  simp only [FlightAlert.augmentOffers, List.mem_filterMap]
  constructor
  · rintro ⟨f, hf, hsome⟩
    by_cases hp : f.price.isSome
    · rw [if_pos hp, Option.some_inj] at hsome
      subst hsome
      exact ⟨f, hf, hp, rfl, rfl, rfl, rfl, rfl⟩
    · rw [if_neg hp] at hsome
      exact absurd hsome (by simp)
  · rintro ⟨f, hf, hp, ha, hn, hpr, hdep, hdate⟩
    refine ⟨f, hf, ?_⟩
    rw [if_pos hp, Option.some_inj]
    cases g
    cases f
    simp only at ha hn hpr hdep hdate
    simp [ha, hn, hpr, hdep, hdate]

/-- C3 counterexample: a malformed `year_month_str` ("banana") makes
`find_cheapest_flights_in_month` return the plain empty list — the very
value of the genuine "no results" outcome (here, a January scan whose
source returns no offers) — rather than any distinct `InvalidInput`
failure. -/
theorem C3_counterexample :
    (FlightAlert.find_cheapest_flights_in_month (fun _ => []) "banana").1
        = (FlightAlert.find_cheapest_flights_in_month (fun _ => []) "2024-01").1
      ∧ (FlightAlert.find_cheapest_flights_in_month (fun _ => []) "banana")
        = (FlightAlert.ScanRet.ret [], []) := by
  constructor
  · decide
  · decide

/-- C3 amended: a `year_month_str` that fails the `int` parse is caught and
makes the scan return the empty list immediately, before any data-source
query (the queried-dates trace is empty); this empty return is the same
value the caller sees for "no results", not a distinct failure. -/
theorem C3_amended_invalid_month_empty
    (source : String → List FlightAlert.Offer) (ym : String)
    (h : FlightAlert.pyParseYM ym = none) :
    FlightAlert.find_cheapest_flights_in_month source ym
      = (FlightAlert.ScanRet.ret [], []) := by
  unfold FlightAlert.find_cheapest_flights_in_month
  rw [h]

/-- Witness for the amended C3 at the concrete input "banana". -/
theorem C3_amended_invalid_month_empty_witness :
    FlightAlert.find_cheapest_flights_in_month (fun _ => []) "banana"
      = (FlightAlert.ScanRet.ret [], []) :=
  C3_amended_invalid_month_empty (fun _ => []) "banana" (by decide)

/-- C5: if the data source fails (returns no offers, which is also how
`search_flights_api` reports failure) on day `d` but behaves as `source`
elsewhere, the month scan still completes with a returned list, and that
result is exactly the one computed with day `d` absent from the collected
input. -/
theorem C5_day_failure_tolerance
    (source : String → List FlightAlert.Offer) (ym : String) (y m d : Int)
    (hp : FlightAlert.pyParseYM ym = some (y, m)) (hm : 1 ≤ m ∧ m ≤ 12) :
    (FlightAlert.find_cheapest_flights_in_month
        (fun dt => if dt = FlightAlert.dateStr y m d then [] else source dt)
        ym).1
      = FlightAlert.ScanRet.ret (FlightAlert.postProcessMonth
          (((FlightAlert.monthDates y m).filter
              fun dt => !(decide (dt = FlightAlert.dateStr y m d))).flatMap
            fun dt => FlightAlert.augmentOffers dt (source dt))) := by
  unfold FlightAlert.find_cheapest_flights_in_month
  rw [hp]
  simp only [if_pos hm]
  unfold FlightAlert.collectForMonth
  have hpt : ∀ dt : String,
      FlightAlert.augmentOffers dt
          (if dt = FlightAlert.dateStr y m d then [] else source dt)
        = if dt = FlightAlert.dateStr y m d then []
          else FlightAlert.augmentOffers dt (source dt) := by
    intro dt
    split
    · rfl
    · rfl
  simp only [hpt]
  rw [FlightAlert.flatMap_zeroed_day]

/-- Witness for C5 at a concrete month, day and source. -/
theorem C5_day_failure_tolerance_witness :
    (FlightAlert.find_cheapest_flights_in_month
        (fun dt => if dt = FlightAlert.dateStr 2024 3 5 then []
          else (fun dt' => if dt' = "2024-03-07" then [FlightAlert.offerA] else []) dt)
        "2024-03").1
      = FlightAlert.ScanRet.ret (FlightAlert.postProcessMonth
          (((FlightAlert.monthDates 2024 3).filter
              fun dt => !(decide (dt = FlightAlert.dateStr 2024 3 5))).flatMap
            fun dt => FlightAlert.augmentOffers dt
              ((fun dt' => if dt' = "2024-03-07" then [FlightAlert.offerA] else []) dt))) :=
  C5_day_failure_tolerance
    (fun dt' => if dt' = "2024-03-07" then [FlightAlert.offerA] else [])
    "2024-03" 2024 3 5 (by decide) (by decide)

/-- C1: whenever a month scan collects at least one offer with a numeric
price, the scan returns (without raising) exactly those numeric-priced
collected offers whose price is the minimum over all numeric-priced
collected offers — the minimum really is a lower bound attained by some
collected offer, membership in the result is equivalent to having that
price, and the result is a sublist of the collection (day-ascending,
within-day source order preserved). -/
theorem C1_monthly_minimum (source : String → List FlightAlert.Offer)
    (ym : String) (y m : Int)
    (hp : FlightAlert.pyParseYM ym = some (y, m)) (hm : 1 ≤ m ∧ m ≤ 12)
    (hv : (FlightAlert.collectForMonth source y m).filter
        (fun f => (FlightAlert.numPrice f).isSome) ≠ []) :
    ∃ (R : List FlightAlert.Offer) (mp : ℚ),
      (FlightAlert.find_cheapest_flights_in_month source ym).1
          = FlightAlert.ScanRet.ret R ∧
        R.Sublist (FlightAlert.collectForMonth source y m) ∧
        (∀ f ∈ (FlightAlert.collectForMonth source y m).filter
            (fun f => (FlightAlert.numPrice f).isSome),
          ∀ q, FlightAlert.numPrice f = some q → mp ≤ q) ∧
        (∃ f ∈ (FlightAlert.collectForMonth source y m).filter
            (fun f => (FlightAlert.numPrice f).isSome),
          FlightAlert.numPrice f = some mp) ∧
        (∀ f, f ∈ R ↔
          f ∈ (FlightAlert.collectForMonth source y m).filter
              (fun f => (FlightAlert.numPrice f).isSome) ∧
            FlightAlert.numPrice f = some mp) := by
  obtain ⟨mp, hpost, hex, hbound⟩ :=
    FlightAlert.postProcessMonth_spec (FlightAlert.collectForMonth source y m) hv
  refine ⟨((FlightAlert.collectForMonth source y m).filter
      (fun f => (FlightAlert.numPrice f).isSome)).filter
        (fun f => decide (FlightAlert.numPrice f = some mp)), mp,
    ?_, ?_, hbound, hex, ?_⟩
  · unfold FlightAlert.find_cheapest_flights_in_month
    rw [hp]
    simp only [if_pos hm]
    rw [hpost]
  · exact (List.filter_sublist _).trans (List.filter_sublist _)
  · intro f
    rw [List.mem_filter]
    simp only [decide_eq_true_eq]

/-- Witness for C1: a leap-February scan whose source returns one offer
priced 100 every day. -/
theorem C1_monthly_minimum_witness :
    ∃ (R : List FlightAlert.Offer) (mp : ℚ),
      (FlightAlert.find_cheapest_flights_in_month (fun _ => [FlightAlert.offerA])
            "2024-02").1
          = FlightAlert.ScanRet.ret R ∧
        R.Sublist (FlightAlert.collectForMonth (fun _ => [FlightAlert.offerA]) 2024 2) ∧
        (∀ f ∈ (FlightAlert.collectForMonth (fun _ => [FlightAlert.offerA]) 2024 2).filter
            (fun f => (FlightAlert.numPrice f).isSome),
          ∀ q, FlightAlert.numPrice f = some q → mp ≤ q) ∧
        (∃ f ∈ (FlightAlert.collectForMonth (fun _ => [FlightAlert.offerA]) 2024 2).filter
            (fun f => (FlightAlert.numPrice f).isSome),
          FlightAlert.numPrice f = some mp) ∧
        (∀ f, f ∈ R ↔
          f ∈ (FlightAlert.collectForMonth (fun _ => [FlightAlert.offerA]) 2024 2).filter
              (fun f => (FlightAlert.numPrice f).isSome) ∧
            FlightAlert.numPrice f = some mp) :=
  C1_monthly_minimum (fun _ => [FlightAlert.offerA]) "2024-02" 2024 2
    (by decide) (by decide) (by decide)

/-- C6: the `/setthreshold` handler leaves the stored per-user threshold
(and hence the default used at lookup when none is stored) unchanged and
reports a validation error when the amount is non-numeric or is a numeric
value that is zero or negative; for a positive numeric amount it stores
exactly that amount. -/
theorem C6_set_threshold (a : String) (ud : FlightAlert.BotUserData) :
    (FlightAlert.pyFloat? a = none →
        FlightAlert.set_threshold_command_handler [a] ud
          = (FlightAlert.Msg.invalidAmount, ud)) ∧
      (∀ q : ℚ,
        FlightAlert.pyFloat? a = some (FlightAlert.FloatR.fin q) → q ≤ 0 →
          FlightAlert.set_threshold_command_handler [a] ud
            = (FlightAlert.Msg.mustBePositive, ud)) ∧
      (∀ q : ℚ,
        FlightAlert.pyFloat? a = some (FlightAlert.FloatR.fin q) → 0 < q →
          FlightAlert.set_threshold_command_handler [a] ud
            = (FlightAlert.Msg.thresholdUpdated (FlightAlert.FloatR.fin q),
                { ud with price_threshold := some (FlightAlert.FloatR.fin q) })) := by
  refine ⟨?_, ?_, ?_⟩
  · intro h
    simp [FlightAlert.set_threshold_command_handler, h]
  · intro q h hle
    simp [FlightAlert.set_threshold_command_handler, h,
      FlightAlert.floatLeZero, hle]
  · intro q h hpos
    simp [FlightAlert.set_threshold_command_handler, h,
      FlightAlert.floatLeZero, not_le.mpr hpos]

/-- Witness for C6 at the concrete amounts "abc", "-5" and "250". -/
theorem C6_set_threshold_witness :
    FlightAlert.set_threshold_command_handler ["abc"]
          { price_threshold := some (FlightAlert.FloatR.fin 10) }
        = (FlightAlert.Msg.invalidAmount,
            { price_threshold := some (FlightAlert.FloatR.fin 10) })
      ∧ FlightAlert.set_threshold_command_handler ["-5"]
          { price_threshold := none }
        = (FlightAlert.Msg.mustBePositive, { price_threshold := none })
      ∧ FlightAlert.set_threshold_command_handler ["250"]
          { price_threshold := none }
        = (FlightAlert.Msg.thresholdUpdated (FlightAlert.FloatR.fin 250),
            { price_threshold := some (FlightAlert.FloatR.fin 250) }) :=
  ⟨(C6_set_threshold "abc"
        { price_threshold := some (FlightAlert.FloatR.fin 10) }).1 (by decide),
    (C6_set_threshold "-5" { price_threshold := none }).2.1 (-5)
      (by decide) (by norm_num),
    (C6_set_threshold "250" { price_threshold := none }).2.2 250
      (by decide) (by norm_num)⟩

/-- C10: `search_flights_api` returns a list on every execution path —
missing key, API error field, client exception, other exception, data or
no data — never `None` and never an uncaught exception; consequently the
`flights is None` branch of `search_command_handler` (and its
internal-error branch) is unreachable: no run of the live handler ever
emits the error-fetching or internal-error reply. -/
theorem C10_api_always_returns_list :
    (∀ (k : Option String) (c : FlightAlert.SerpCall),
        FlightAlert.search_flights_api k c
          = FlightAlert.PyRet.val (FlightAlert.searchFlightsList k c)) ∧
      ∀ (w : FlightAlert.ApiWorld) (render : FlightAlert.Offer → String)
        (t : FlightAlert.FloatR) (args : List String),
        (FlightAlert.search_command_handler_live w render t args).all
            (fun a =>
              !(a == FlightAlert.Act.reply FlightAlert.Msg.errorFetching) &&
                !(a == FlightAlert.Act.reply FlightAlert.Msg.internalError))
          = true := by
  refine ⟨FlightAlert.search_flights_api_eq_val, ?_⟩
  intro w render t args
  rw [List.all_eq_true]
  intro x hx
  obtain ⟨h1, h2⟩ := FlightAlert.handler_no_error_replies w render t args x hx
  simp [h1, h2]

/-- C4 counterexample: with a valid single-date query, a world whose
SerpApi call raises (a SourceError) produces exactly the same handler run
as a world whose call succeeds with zero offers — both end in the
"no flights found" reply, so the two outcomes are collapsed, and no
distinct error-fetching message is shown. -/
theorem C4_counterexample :
    FlightAlert.search_command_handler_live FlightAlert.worldRaise
          FlightAlert.renderNone (FlightAlert.FloatR.fin 300)
          ["JFK", "LAX", "2024-12-24"]
        = FlightAlert.search_command_handler_live FlightAlert.worldEmptyOk
            FlightAlert.renderNone (FlightAlert.FloatR.fin 300)
            ["JFK", "LAX", "2024-12-24"]
      ∧ FlightAlert.search_command_handler_live FlightAlert.worldRaise
          FlightAlert.renderNone (FlightAlert.FloatR.fin 300)
          ["JFK", "LAX", "2024-12-24"]
        = [FlightAlert.Act.apiCall "JFK" "LAX" "2024-12-24",
            FlightAlert.Act.reply FlightAlert.Msg.noFlightsSingle] := by
  constructor
  · decide
  · decide

/-- C4 amended: for any valid single-date query against a nonempty API
key, a SerpApi client exception is absorbed inside `search_flights_api`
(which returns the empty list), so the handler run is identical to the one
for an empty-but-successful response and ends in the "no flights found"
reply; the distinct "error fetching data" branch is dead code. -/
theorem C4_amended_source_error_collapsed (k : String)
    (render : FlightAlert.Offer → String) (t : FlightAlert.FloatR)
    (a0 a1 a2 : String) (hk : k ≠ "")
    (hvalid : FlightAlert.validSearchArgs (FlightAlert.upperStr a0)
        (FlightAlert.upperStr a1) a2 = true) :
    FlightAlert.search_command_handler_live
          { key := some k, call := fun _ _ _ => FlightAlert.SerpCall.raiseClient }
          render t [a0, a1, a2]
        = FlightAlert.search_command_handler_live
            { key := some k,
              call := fun _ _ _ => FlightAlert.SerpCall.ok
                { error := false, best_flights := [], other_flights := [] } }
            render t [a0, a1, a2]
      ∧ FlightAlert.Act.reply FlightAlert.Msg.noFlightsSingle
          ∈ FlightAlert.search_command_handler_live
              { key := some k, call := fun _ _ _ => FlightAlert.SerpCall.raiseClient }
              render t [a0, a1, a2] := by
  have h1 : FlightAlert.search_flights_api (some k) FlightAlert.SerpCall.raiseClient
      = FlightAlert.PyRet.val [] := by
    simp [FlightAlert.search_flights_api, hk]
  have h2 : FlightAlert.search_flights_api (some k)
        (FlightAlert.SerpCall.ok
          { error := false, best_flights := [], other_flights := [] })
      = FlightAlert.PyRet.val [] := by
    simp [FlightAlert.search_flights_api, hk]
  constructor
  · simp [FlightAlert.search_command_handler_live,
      FlightAlert.search_command_handler, hvalid, h1, h2]
  · simp [FlightAlert.search_command_handler_live,
      FlightAlert.search_command_handler, hvalid, h1]

/-- Witness for the amended C4 at a concrete key and query. -/
theorem C4_amended_source_error_collapsed_witness :
    FlightAlert.search_command_handler_live
          { key := some "K", call := fun _ _ _ => FlightAlert.SerpCall.raiseClient }
          FlightAlert.renderNone (FlightAlert.FloatR.fin 300)
          ["JFK", "LAX", "2024-12-24"]
        = FlightAlert.search_command_handler_live
            { key := some "K",
              call := fun _ _ _ => FlightAlert.SerpCall.ok
                { error := false, best_flights := [], other_flights := [] } }
            FlightAlert.renderNone (FlightAlert.FloatR.fin 300)
            ["JFK", "LAX", "2024-12-24"]
      ∧ FlightAlert.Act.reply FlightAlert.Msg.noFlightsSingle
          ∈ FlightAlert.search_command_handler_live
              { key := some "K", call := fun _ _ _ => FlightAlert.SerpCall.raiseClient }
              FlightAlert.renderNone (FlightAlert.FloatR.fin 300)
              ["JFK", "LAX", "2024-12-24"] :=
  C4_amended_source_error_collapsed "K" FlightAlert.renderNone
    (FlightAlert.FloatR.fin 300) "JFK" "LAX" "2024-12-24"
    (by decide) (by decide)

/-- C7 counterexample: the argument "abcdefghij" is a 10-character string
that is not in `YYYY-MM-DD` shape, yet `/search JFK LAX abcdefghij`
invokes the data source (the handler's run contains the `apiCall` action)
instead of short-circuiting with a validation reply — the date is
validated by length alone. -/
theorem C7_counterexample :
    FlightAlert.specDateShapedYMD "abcdefghij" = false
      ∧ FlightAlert.search_command_handler_live FlightAlert.worldNone
          FlightAlert.renderNone (FlightAlert.FloatR.fin 300)
          ["JFK", "LAX", "abcdefghij"]
        = [FlightAlert.Act.apiCall "JFK" "LAX" "abcdefghij",
            FlightAlert.Act.reply FlightAlert.Msg.noFlightsSingle] := by
  constructor
  · decide
  · decide

/-- C7 amended: each handler rejects invalid arguments with a single
usage/validation reply and no data-source call, where "invalid" is what
the code checks: codes not of 3 alphabetic characters, a single date whose
length is not 10 (its content is not inspected), or a year-month failing
the `^\d-pattern` check. -/
theorem C7_amended_validation_short_circuits (w : FlightAlert.ApiWorld)
    (render : FlightAlert.Offer → String)
    (hdr : String → String → String → Option FlightAlert.PriceVal → String)
    (t : FlightAlert.FloatR) (a0 a1 a2 : String) :
    (FlightAlert.validSearchArgs (FlightAlert.upperStr a0)
          (FlightAlert.upperStr a1) a2 = false →
        FlightAlert.search_command_handler_live w render t [a0, a1, a2]
          = [FlightAlert.Act.reply FlightAlert.Msg.invalidFormat]) ∧
      (FlightAlert.validCode (FlightAlert.upperStr a0) = false →
        FlightAlert.search_month_command_handler w hdr render [a0, a1, a2]
          = [FlightAlert.Act.reply FlightAlert.Msg.invalidOrigin]) ∧
      (FlightAlert.validCode (FlightAlert.upperStr a0) = true →
        FlightAlert.validCode (FlightAlert.upperStr a1) = false →
          FlightAlert.search_month_command_handler w hdr render [a0, a1, a2]
            = [FlightAlert.Act.reply FlightAlert.Msg.invalidDest]) ∧
      (FlightAlert.validCode (FlightAlert.upperStr a0) = true →
        FlightAlert.validCode (FlightAlert.upperStr a1) = true →
          FlightAlert.ymShaped a2 = false →
            FlightAlert.search_month_command_handler w hdr render [a0, a1, a2]
              = [FlightAlert.Act.reply FlightAlert.Msg.invalidYM]) := by
  refine ⟨?_, ?_, ?_, ?_⟩
  · intro h
    simp [FlightAlert.search_command_handler_live,
      FlightAlert.search_command_handler, h]
  · intro h
    simp [FlightAlert.search_month_command_handler, h]
  · intro h0 h1
    simp [FlightAlert.search_month_command_handler, h0, h1]
  · intro h0 h1 h2
    simp [FlightAlert.search_month_command_handler, h0, h1, h2]

/-- Witness for the amended C7 at concrete invalid arguments for each of
the four validation checks. -/
theorem C7_amended_validation_short_circuits_witness :
    FlightAlert.search_command_handler_live FlightAlert.worldNone
          FlightAlert.renderNone (FlightAlert.FloatR.fin 300)
          ["JF", "LAX", "2024-12-24"]
        = [FlightAlert.Act.reply FlightAlert.Msg.invalidFormat]
      ∧ FlightAlert.search_month_command_handler FlightAlert.worldNone
          FlightAlert.hdrNone FlightAlert.renderNone ["J1K", "LAX", "2024-12"]
        = [FlightAlert.Act.reply FlightAlert.Msg.invalidOrigin]
      ∧ FlightAlert.search_month_command_handler FlightAlert.worldNone
          FlightAlert.hdrNone FlightAlert.renderNone ["JFK", "L4X", "2024-12"]
        = [FlightAlert.Act.reply FlightAlert.Msg.invalidDest]
      ∧ FlightAlert.search_month_command_handler FlightAlert.worldNone
          FlightAlert.hdrNone FlightAlert.renderNone ["JFK", "LAX", "2024-1"]
        = [FlightAlert.Act.reply FlightAlert.Msg.invalidYM] :=
  ⟨(C7_amended_validation_short_circuits FlightAlert.worldNone
      FlightAlert.renderNone FlightAlert.hdrNone (FlightAlert.FloatR.fin 300)
      "JF" "LAX" "2024-12-24").1 (by decide),
    (C7_amended_validation_short_circuits FlightAlert.worldNone
      FlightAlert.renderNone FlightAlert.hdrNone (FlightAlert.FloatR.fin 300)
      "J1K" "LAX" "2024-12").2.1 (by decide),
    (C7_amended_validation_short_circuits FlightAlert.worldNone
      FlightAlert.renderNone FlightAlert.hdrNone (FlightAlert.FloatR.fin 300)
      "JFK" "L4X" "2024-12").2.2.1 (by decide) (by decide),
    (C7_amended_validation_short_circuits FlightAlert.worldNone
      FlightAlert.renderNone FlightAlert.hdrNone (FlightAlert.FloatR.fin 300)
      "JFK" "LAX" "2024-1").2.2.2 (by decide) (by decide) (by decide)⟩

/-- C8 counterexample: a single flight-detail part of 4095 characters makes
the chunking loop send a message longer than 4096 characters (the running
message becomes the part plus a blank line, 4097 characters, and is sent
as-is). -/
theorem C8_counterexample :
    (FlightAlert.sendChunks [FlightAlert.bigPart] "").any
        (fun m => decide (4096 < m.length)) = true := by
  have hlen : FlightAlert.bigPart.length = 4095 := by
    rw [show FlightAlert.bigPart = String.mk (List.replicate 4095 'a') from rfl,
      String.length_mk, List.length_replicate]
  have hnn : ("\n\n" : String).length = 2 := rfl
  have hne : FlightAlert.bigPart ++ "\n\n" ≠ "" := by
    intro h
    have hl := congrArg String.length h
    rw [String.length_append, hlen, hnn, String.length_empty] at hl
    omega
  have hfull : FlightAlert.sendChunks [FlightAlert.bigPart] ""
      = ["", FlightAlert.bigPart ++ "\n\n"] := by
    rw [FlightAlert.sendChunks, if_pos]
    · rw [FlightAlert.sendChunks, if_neg hne]
    · rw [hlen, String.length_empty]
      omega
  rw [hfull]
  simp [String.length_append, hlen, hnn]

/-- C8 amended: provided every flight-detail part is at most 4094
characters and the initial running message at most 4096 (for the
single-date loop it starts empty), every message the chunking loop sends
is at most 4096 characters, their concatenation is exactly the initial
text followed by the parts in order (each with its blank-line separator),
and the month-variant loop coincides with the single-date loop whenever at
most 30 parts exist (below its display cutoff). -/
theorem C8_amended_chunking (parts : List String) (acc : String)
    (total i : Nat) (hparts : ∀ p ∈ parts, p.length ≤ 4094)
    (hacc : acc.length ≤ 4096) (htot : total ≤ 30) :
    ((FlightAlert.sendChunks parts acc).all
        (fun m => decide (m.length ≤ 4096)) = true) ∧
      FlightAlert.concatAll (FlightAlert.sendChunks parts acc)
        = acc ++ FlightAlert.concatAll (parts.map (fun p => p ++ "\n\n")) ∧
      FlightAlert.chunkMonthLoop total i parts acc
        = FlightAlert.sendChunks parts acc :=
  ⟨List.all_eq_true.mpr fun m hm =>
      decide_eq_true (FlightAlert.sendChunks_length_le parts acc hparts hacc m hm),
    FlightAlert.sendChunks_concat parts acc,
    FlightAlert.chunkMonthLoop_eq_sendChunks total htot parts i acc⟩

/-- Witness for the amended C8 at two small parts. -/
theorem C8_amended_chunking_witness :
    ((FlightAlert.sendChunks ["a", "b"] "").all
        (fun m => decide (m.length ≤ 4096)) = true) ∧
      FlightAlert.concatAll (FlightAlert.sendChunks ["a", "b"] "")
        = "" ++ FlightAlert.concatAll (["a", "b"].map (fun p => p ++ "\n\n")) ∧
      FlightAlert.chunkMonthLoop 2 0 ["a", "b"] ""
        = FlightAlert.sendChunks ["a", "b"] "" :=
  C8_amended_chunking ["a", "b"] "" 2 0 (by decide) (by decide) (by decide)
